import Mathlib

set_option linter.unusedVariables false

/-!
Verification of the PrivateMedTwin repository: a shallow embedding of the
`MedicalDigitalTwinFHE` Solidity contract (src/unnamed/part_000) and of the
frontend twin-record synchronization logic (src/frontend/web/src/App.tsx),
with theorems settling the specified properties.

Modelling conventions for the contract:
* `uint32` / `uint256` values are `Nat`; Solidity 0.8 checked arithmetic is
  modelled by explicit bound tests that return `none` (revert) on overflow.
  `euint32` ciphertext handles are modelled as `Nat`.
* Solidity mappings are total functions `Nat → α` returning the default
  (zero-initialized) struct, updated pointwise.
* Reverting functions return `Option ContractState`; `none` is a revert
  (state unchanged).
* External calls: `FHE.requestDecryption` returns an oracle request id,
  modelled as a parameter; `FHE.checkSignatures` either passes or reverts,
  modelled as a `Bool` parameter (`false` = invalid proof = revert);
  `block.timestamp` is a parameter.
-/

namespace MedTwin

/-- Solidity dynamic array of `uint32`, as decoded by `abi.decode`. -/
abbrev Word32Array := List Nat

/-- One cell `2 ^ 32`, the modulus bound of `uint32`. -/
def u32Bound : Nat := 2 ^ 32

/-- One cell `2 ^ 256`, the modulus bound of `uint256`. -/
def u256Bound : Nat := 2 ^ 256

/-- Accumulator loop of `calculateEfficacy` (part_000 lines 236-240):
`score += drugs[i] * dosage[i] / 100` over `i < drugs.length`, with checked
`uint32` multiplication and addition (revert on overflow) and revert on an
out-of-bounds read of `dosage`; at the end `score > 100 ? 100 : score`. -/
def calcEffLoop : List Nat → List Nat → Nat → Option Nat
  | [], _, score => some (if score > 100 then 100 else score)
  | _ :: _, [], _ => none
  | d :: ds, q :: qs, score =>
      if d * q < u32Bound then
        if score + d * q / 100 < u32Bound then
          calcEffLoop ds qs (score + d * q / 100)
        else none
      else none

/-- `calculateEfficacy(genomics, biomarkers, drugs, dosage)` from
part_000 lines 230-241.  The `genomics` and `biomarkers` parameters are
accepted and, as in the source, never read. -/
def calculateEfficacy (genomics biomarkers drugs dosage : Word32Array) :
    Option Nat :=
  calcEffLoop drugs dosage 0

/-- Element loop of `predictSideEffects` (part_000 lines 247-251):
`effects[i] = drugs[i] * dosage[i] / 50` with checked `uint32`
multiplication and revert on an out-of-bounds read of `dosage`. -/
def sideEffectsLoop : List Nat → List Nat → Option (List Nat)
  | [], _ => some []
  | _ :: _, [] => none
  | d :: ds, q :: qs =>
      if d * q < u32Bound then
        (sideEffectsLoop ds qs).map (fun es => d * q / 50 :: es)
      else none

/-- `predictSideEffects(drugs, dosage)` from part_000 lines 243-252. -/
def predictSideEffects (drugs dosage : Word32Array) : Option (List Nat) :=
  sideEffectsLoop drugs dosage

/-- The spec formula `Σ drug[i]·dosage[i] / 100` (per-element integer
division, as the code computes it), stated from the spec's words. -/
def specEfficacySum (drugs dosage : List Nat) : Nat :=
  (List.zipWith (fun d q => d * q / 100) drugs dosage).sum

/-- The spec formula `sideEffect[i] = drug[i]·dosage[i] / 50`, stated from
the spec's words. -/
def specSideEffects (drugs dosage : List Nat) : List Nat :=
  List.zipWith (fun d q => d * q / 50) drugs dosage

/-- Struct `EncryptedPatient` (part_000 lines 8-14); `euint32` handles as
`Nat`. -/
structure EncryptedPatient where
  patientId : Nat
  encryptedGenomics : Nat
  encryptedBiomarkers : Nat
  encryptedHistory : Nat
  timestamp : Nat
deriving Repr, DecidableEq

/-- Struct `EncryptedTreatment` (part_000 lines 16-23). -/
structure EncryptedTreatment where
  treatmentId : Nat
  encryptedDrugs : Nat
  encryptedDosage : Nat
  encryptedSchedule : Nat
  patientId : Nat
  prescribedAt : Nat
deriving Repr, DecidableEq

/-- Struct `EncryptedSimulation` (part_000 lines 25-31). -/
structure EncryptedSimulation where
  simulationId : Nat
  encryptedOutcome : Nat
  encryptedSideEffects : Nat
  treatmentId : Nat
  simulatedAt : Nat
deriving Repr, DecidableEq

/-- Struct `DecryptedResult` (part_000 lines 33-37). -/
structure DecryptedResult where
  efficacyScore : Nat
  sideEffects : List Nat
  isRevealed : Bool
deriving Repr, DecidableEq

/-- The five contract events (part_000 lines 50-54). -/
inductive ContractEvent where
  | PatientRegistered (patientId timestamp : Nat)
  | TreatmentPrescribed (treatmentId patientId : Nat)
  | SimulationRequested (requestId treatmentId : Nat)
  | SimulationCompleted (simulationId : Nat)
  | ResultDecrypted (simulationId : Nat)
deriving Repr, DecidableEq

/-- The contract's storage (part_000 lines 39-48) plus the emitted event
log.  Mappings are total functions returning zero-initialized defaults. -/
structure ContractState where
  patientCount : Nat
  treatmentCount : Nat
  simulationCount : Nat
  encryptedPatients : Nat → EncryptedPatient
  encryptedTreatments : Nat → EncryptedTreatment
  encryptedSimulations : Nat → EncryptedSimulation
  decryptedResults : Nat → DecryptedResult
  requestToPatientId : Nat → Nat
  simulationRequestToId : Nat → Nat
  events : List ContractEvent

/-- Pointwise update of a Solidity mapping. -/
def setMap {α : Type} (m : Nat → α) (k : Nat) (v : α) : Nat → α :=
  fun i => if i = k then v else m i

/-- The zero-initialized `DecryptedResult` a mapping returns for an
absent key. -/
def defaultResult : DecryptedResult :=
  { efficacyScore := 0, sideEffects := [], isRevealed := false }

/-- Contract storage right after deployment: zero counters, empty
mappings, no events. -/
def initState : ContractState where
  patientCount := 0
  treatmentCount := 0
  simulationCount := 0
  encryptedPatients := fun _ =>
    { patientId := 0, encryptedGenomics := 0, encryptedBiomarkers := 0,
      encryptedHistory := 0, timestamp := 0 }
  encryptedTreatments := fun _ =>
    { treatmentId := 0, encryptedDrugs := 0, encryptedDosage := 0,
      encryptedSchedule := 0, patientId := 0, prescribedAt := 0 }
  encryptedSimulations := fun _ =>
    { simulationId := 0, encryptedOutcome := 0, encryptedSideEffects := 0,
      treatmentId := 0, simulatedAt := 0 }
  decryptedResults := fun _ => defaultResult
  requestToPatientId := fun _ => 0
  simulationRequestToId := fun _ => 0
  events := []

/-- `registerEncryptedPatient` (part_000 lines 61-78).  `patientCount += 1`
is checked `uint256` arithmetic; `ts` is `block.timestamp`. -/
def registerEncryptedPatient (g b h ts : Nat) (s : ContractState) :
    Option ContractState :=
  if s.patientCount + 1 < u256Bound then
    let newPatientId := s.patientCount + 1
    some { s with
      patientCount := newPatientId
      encryptedPatients := setMap s.encryptedPatients newPatientId
        { patientId := newPatientId, encryptedGenomics := g,
          encryptedBiomarkers := b, encryptedHistory := h, timestamp := ts }
      events := s.events ++ [.PatientRegistered newPatientId ts] }
  else none

/-- `prescribeEncryptedTreatment` (part_000 lines 80-99).  Note: no check
that `patientId` refers to an existing patient. -/
def prescribeEncryptedTreatment (patientId d q sch ts : Nat)
    (s : ContractState) : Option ContractState :=
  if s.treatmentCount + 1 < u256Bound then
    let newTreatmentId := s.treatmentCount + 1
    some { s with
      treatmentCount := newTreatmentId
      encryptedTreatments := setMap s.encryptedTreatments newTreatmentId
        { treatmentId := newTreatmentId, encryptedDrugs := d,
          encryptedDosage := q, encryptedSchedule := sch,
          patientId := patientId, prescribedAt := ts }
      events := s.events ++ [.TreatmentPrescribed newTreatmentId patientId] }
  else none

/-- `requestTreatmentSimulation` (part_000 lines 101-115).  `reqId` is the
id returned by the external `FHE.requestDecryption`; the ciphertext
gathering is read-only.  Records `requestToPatientId[reqId] = treatmentId`
regardless of whether the treatment exists. -/
def requestTreatmentSimulation (treatmentId reqId : Nat)
    (s : ContractState) : ContractState :=
  { s with
    requestToPatientId := setMap s.requestToPatientId reqId treatmentId
    events := s.events ++ [.SimulationRequested reqId treatmentId] }

/-- `runSimulation` (part_000 lines 117-153), the oracle callback.  The
`cleartexts` argument is taken already `abi.decode`d into the four
`uint32[]` arrays; `sigOk` models `FHE.checkSignatures` (revert when
false); `ts` is `block.timestamp`. -/
def runSimulation (requestId : Nat)
    (genomics biomarkers drugs dosage : Word32Array)
    (sigOk : Bool) (ts : Nat) (s : ContractState) : Option ContractState :=
  let treatmentId := s.requestToPatientId requestId
  if treatmentId = 0 then none
  else if !sigOk then none
  else if s.simulationCount + 1 < u256Bound then
    match calculateEfficacy genomics biomarkers drugs dosage,
          predictSideEffects drugs dosage with
    | some efficacy, some sideEffects =>
      let newSimulationId := s.simulationCount + 1
      some { s with
        simulationCount := newSimulationId
        encryptedSimulations := setMap s.encryptedSimulations newSimulationId
          { simulationId := newSimulationId, encryptedOutcome := efficacy,
            encryptedSideEffects := 0, treatmentId := treatmentId,
            simulatedAt := ts }
        decryptedResults := setMap s.decryptedResults newSimulationId
          { efficacyScore := efficacy, sideEffects := sideEffects,
            isRevealed := false }
        events := s.events ++ [.SimulationCompleted newSimulationId] }
    | _, _ => none
  else none

/-- `requestResultDecryption` (part_000 lines 155-165).  Rejects when the
result is already revealed; otherwise records
`simulationRequestToId[reqId] = simulationId`.  Note: no check that the
simulation exists. -/
def requestResultDecryption (simulationId reqId : Nat)
    (s : ContractState) : Option ContractState :=
  if (s.decryptedResults simulationId).isRevealed then none
  else some { s with
    simulationRequestToId := setMap s.simulationRequestToId reqId
      simulationId }

/-- `decryptSimulation` (part_000 lines 167-187), the reveal callback.
`cleartexts` is taken already decoded into `(efficacy, sideEffects)`. -/
def decryptSimulation (requestId : Nat) (efficacy : Nat)
    (sideEffects : List Nat) (sigOk : Bool) (s : ContractState) :
    Option ContractState :=
  let simulationId := s.simulationRequestToId requestId
  if simulationId = 0 then none
  else if (s.decryptedResults simulationId).isRevealed then none
  else if !sigOk then none
  else some { s with
    decryptedResults := setMap s.decryptedResults simulationId
      { efficacyScore := efficacy, sideEffects := sideEffects,
        isRevealed := true }
    events := s.events ++ [.ResultDecrypted simulationId] }

/-- One successful public call of the contract, with arbitrary caller
arguments, oracle request ids, signature outcomes and timestamps. -/
inductive Step : ContractState → ContractState → Prop where
  | register {s s' : ContractState} {g b h ts : Nat}
      (hs : registerEncryptedPatient g b h ts s = some s') : Step s s'
  | prescribe {s s' : ContractState} {pid d q sch ts : Nat}
      (hs : prescribeEncryptedTreatment pid d q sch ts s = some s') :
      Step s s'
  | requestSim {s : ContractState} (treatmentId reqId : Nat) :
      Step s (requestTreatmentSimulation treatmentId reqId s)
  | runSim {s s' : ContractState} {rid : Nat} {g b d q : Word32Array}
      {ok : Bool} {ts : Nat}
      (hs : runSimulation rid g b d q ok ts s = some s') : Step s s'
  | requestDecrypt {s s' : ContractState} {sid rid : Nat}
      (hs : requestResultDecryption sid rid s = some s') : Step s s'
  | decryptSim {s s' : ContractState} {rid eff : Nat} {se : List Nat}
      {ok : Bool} (hs : decryptSimulation rid eff se ok s = some s') :
      Step s s'

/-- Contract states reachable from deployment by public calls. -/
inductive Reachable : ContractState → Prop where
  | init : Reachable initState
  | step {s s' : ContractState} : Reachable s → Step s s' → Reachable s'

end MedTwin

namespace Frontend

/-- Frontend `Treatment` record (App.tsx lines 19-27).  JS numbers that
the code only ever fills with small non-negative integers are `Nat`. -/
structure Treatment where
  id : String
  name : String
  dosage : String
  duration : String
  effectiveness : Nat
  sideEffects : String
  timestamp : Nat
deriving Repr, DecidableEq

/-- Shape of the JSON document stored under `twin_<id>` (App.tsx lines
166-173).  `treatmentHistory` and `currentStatus` are `Option` because the
loading code tolerates their absence with `|| []` and `|| "active"`. -/
structure TwinJson where
  patientId : String
  data : String
  createdAt : Nat
  updatedAt : Nat
  treatmentHistory : Option (List Treatment)
  currentStatus : Option String
deriving Repr, DecidableEq

/-- Frontend `DigitalTwin` view model (App.tsx lines 9-17). -/
structure DigitalTwin where
  id : String
  patientId : String
  encryptedData : String
  createdAt : Nat
  updatedAt : Nat
  treatmentHistory : List Treatment
  currentStatus : String
deriving Repr, DecidableEq

/-- Raw byte blobs returned by the ledger's `getData`. -/
abbrev Bytes := List Nat

/-- The frontend's environment: the key-value ledger contract plus the
outcome of `JSON.parse` on each blob.  `data key = none` models the
`getData` call throwing; `parseKeys` / `parseTwin` return `none` when
`JSON.parse` throws (corrupt JSON) or yields the wrong shape. -/
structure LedgerEnv where
  isAvailable : Bool
  data : String → Option Bytes
  parseKeys : Bytes → Option (List String)
  parseTwin : Bytes → Option TwinJson

/-- The `list.push({...})` body of `loadTwins` (App.tsx lines 114-122),
turning a parsed blob into a `DigitalTwin`. -/
def mkTwin (key : String) (td : TwinJson) : DigitalTwin where
  id := key
  patientId := td.patientId
  encryptedData := td.data
  createdAt := td.createdAt
  updatedAt := td.updatedAt
  treatmentHistory := td.treatmentHistory.getD []
  currentStatus := td.currentStatus.getD "active"

/-- Stable descending insertion by `createdAt`, modelling
`list.sort((a, b) => b.createdAt - a.createdAt)` (App.tsx line 132). -/
def insertByCreatedDesc (t : DigitalTwin) :
    List DigitalTwin → List DigitalTwin
  | [] => [t]
  | u :: rest =>
      if u.createdAt < t.createdAt then t :: u :: rest
      else u :: insertByCreatedDesc t rest

/-- Sort by creation time, descending (App.tsx line 132). -/
def sortByCreatedDesc : List DigitalTwin → List DigitalTwin
  | [] => []
  | t :: rest => insertByCreatedDesc t (sortByCreatedDesc rest)

/-- The per-key loop body of `loadTwins` (App.tsx lines 108-130): read the
key's blob (a thrown read is caught at line 127: skip the key), skip empty
blobs, parse (a parse failure is caught at line 123: skip the key). -/
def loadOneTwin (env : LedgerEnv) (key : String) : Option DigitalTwin :=
  match env.data (String.append "twin_" key) with
  | none => none
  | some twinBytes =>
      if twinBytes.length > 0 then
        match env.parseTwin twinBytes with
        | some td => some (mkTwin key td)
        | none => none
      else none

/-- `loadTwins` (App.tsx lines 82-140).  `prev` is the `twins` state
before the call; it is returned unchanged on the paths where `setTwins`
is never reached (contract unavailable, or the index read throws into the
outer catch).  An index blob that is empty or fails to parse yields
`keys = []` (lines 96-104). -/
def loadTwins (env : LedgerEnv) (prev : List DigitalTwin) :
    List DigitalTwin :=
  if !env.isAvailable then prev
  else
    match env.data "twin_keys" with
    | none => prev
    | some keysBytes =>
        let keys : List String :=
          if keysBytes.length > 0 then (env.parseKeys keysBytes).getD []
          else []
        sortByCreatedDesc (keys.filterMap (loadOneTwin env))

/-- `simulateTreatment` (App.tsx lines 234-308), modelled as the record it
writes back under `twin_<twinId>` (`none`: a throw was caught and nothing
was written).  `rnd` is the value of `Math.floor(Math.random() * 26)`, so
`rnd ≤ 25`; effectiveness is `rnd + 70`; `now` is
`Math.floor(Date.now() / 1000)` and `newId` the generated treatment id. -/
def simulateTreatment (env : LedgerEnv) (twinId : String)
    (tName tDosage tDuration newId : String) (rnd now : Nat) :
    Option TwinJson :=
  match env.data (String.append "twin_" twinId) with
  | none => none
  | some twinBytes =>
      if twinBytes.length = 0 then none
      else
        match env.parseTwin twinBytes with
        | none => none
        | some twinData =>
            let effectiveness := rnd + 70
            some { twinData with
              updatedAt := now
              treatmentHistory := some (twinData.treatmentHistory.getD [] ++
                [{ id := newId, name := tName, dosage := tDosage,
                   duration := tDuration, effectiveness := effectiveness,
                   sideEffects :=
                     if effectiveness > 85 then "Minimal" else "Moderate",
                   timestamp := now }]) }

end Frontend

namespace MedTwin

/-!
Concrete call traces used below.  `Option.getD` only peels the `some` of
an operation that is separately proved to succeed.

Trace one exploits the missing existence check in
`requestResultDecryption`: the doctor requests decryption of the
nonexistent simulation 1, the oracle reveals it, and only then does a
simulation callback create simulation 1 — overwriting the revealed
record.
-/

/-- After `requestResultDecryption(simulationId := 1)` with oracle request
id 7, from a fresh deployment. -/
def c3s1 : ContractState :=
  (requestResultDecryption 1 7 initState).getD initState

/-- After the reveal callback for request 7 (efficacy 42, no side
effects): `decryptedResults[1].isRevealed = true` while
`simulationCount = 0`. -/
def c3s2 : ContractState :=
  (decryptSimulation 7 42 [] true c3s1).getD initState

/-- After `requestTreatmentSimulation(treatmentId := 5)` with oracle
request id 9. -/
def c3Snapshot : ContractState := requestTreatmentSimulation 5 9 c3s2

/-- After the simulation callback for request 9: it creates simulation
`simulationCount + 1 = 1`, overwriting the revealed record at id 1 with a
fresh non-revealed one. -/
def c3After : ContractState :=
  (runSimulation 9 [] [] [] [] true 0 c3Snapshot).getD initState

/-!
Trace two is the ordinary lifecycle: request a simulation, run the
callback (creating simulation 1), request its decryption, reveal it.
-/

/-- After `requestTreatmentSimulation(treatmentId := 5)`, request id 9. -/
def w3s1 : ContractState := requestTreatmentSimulation 5 9 initState

/-- After the simulation callback for request 9 with empty decoded
arrays: simulation 1 exists, not yet revealed. -/
def w3s2 : ContractState :=
  (runSimulation 9 [] [] [] [] true 0 w3s1).getD initState

/-- After `requestResultDecryption(simulationId := 1)`, request id 7. -/
def w3s3 : ContractState :=
  (requestResultDecryption 1 7 w3s2).getD initState

/-- After the reveal callback for request 7: simulation 1 revealed,
`simulationCount = 1`. -/
def w3s4 : ContractState :=
  (decryptSimulation 7 42 [] true w3s3).getD initState

/-- After one `registerEncryptedPatient(10, 20, 30)` at timestamp 40 from
a fresh deployment. -/
def w5s1 : ContractState :=
  (registerEncryptedPatient 10 20 30 40 initState).getD initState

/-- After `requestTreatmentSimulation(treatmentId := 3)`, request id 4,
from a fresh deployment. -/
def w10s1 : ContractState := requestTreatmentSimulation 3 4 initState

/-- After a first `runSimulation` callback for request id 4. -/
def w10s2 : ContractState :=
  (runSimulation 4 [] [] [] [] true 0 w10s1).getD initState

end MedTwin

namespace Frontend

/-- A concrete parsed twin record. -/
def w6twin : TwinJson where
  patientId := "P-1"
  data := "FHE-blob"
  createdAt := 100
  updatedAt := 100
  treatmentHistory := some []
  currentStatus := some "active"

/-- Concrete ledger for the C6 scenario: index `["a","b"]`, a parseable
record for `"a"`, corrupt JSON for `"b"`. -/
def w6env : LedgerEnv where
  isAvailable := true
  data := fun k =>
    if k = "twin_keys" then some [1]
    else if k = "twin_a" then some [2]
    else if k = "twin_b" then some [3]
    else none
  parseKeys := fun bs => if bs = [1] then some ["a", "b"] else none
  parseTwin := fun bs => if bs = [2] then some w6twin else none

/-- A concrete parsed twin record with one prior treatment absent. -/
def w7twin : TwinJson where
  patientId := "P-1"
  data := "FHE-blob"
  createdAt := 50
  updatedAt := 50
  treatmentHistory := some []
  currentStatus := some "active"

/-- Concrete ledger holding the single twin `"x"`. -/
def w7env : LedgerEnv where
  isAvailable := true
  data := fun k => if k = "twin_x" then some [9] else none
  parseKeys := fun _ => none
  parseTwin := fun bs => if bs = [9] then some w7twin else none

end Frontend

/-! ## Theorems -/

namespace MedTwin

theorem calcEffLoop_eq (ds qs : List Nat) (acc : Nat) (v : Nat)
    (h : calcEffLoop ds qs acc = some v) :
    v = min 100 (acc + specEfficacySum ds qs) := by
  induction ds generalizing qs acc with
  | nil =>
    simp only [calcEffLoop, Option.some.injEq] at h
    subst h
    simp only [specEfficacySum, List.zipWith_nil_left, List.sum_nil,
      Nat.add_zero, Nat.min_def]
    split_ifs <;> omega
  | cons d ds ih =>
    cases qs with
    | nil => simp [calcEffLoop] at h
    | cons q qs =>
      simp only [calcEffLoop] at h
      by_cases h1 : d * q < u32Bound
      · simp only [h1, if_true] at h
        by_cases h2 : acc + d * q / 100 < u32Bound
        · simp only [h2, if_true] at h
          have := ih qs (acc + d * q / 100) h
          rw [this]
          simp only [specEfficacySum, List.zipWith_cons_cons, List.sum_cons]
          omega
        · simp [h2] at h
      · simp [h1] at h

theorem sideEffectsLoop_eq (ds qs : List Nat) (es : List Nat)
    (h : sideEffectsLoop ds qs = some es) :
    es = specSideEffects ds qs := by
  induction ds generalizing qs es with
  | nil =>
    simp only [sideEffectsLoop, Option.some.injEq] at h
    subst h
    simp [specSideEffects]
  | cons d ds ih =>
    cases qs with
    | nil => simp [sideEffectsLoop] at h
    | cons q qs =>
      simp only [sideEffectsLoop] at h
      by_cases h1 : d * q < u32Bound
      · simp only [h1, if_true, Option.map_eq_some'] at h
        obtain ⟨es', hes', rfl⟩ := h
        simp [specSideEffects, ih qs es' hes']
      · simp [h1] at h

/-- Anatomy of a successful `runSimulation` call: the checks that passed
and the resulting state, expressed through `calculateEfficacy` and
`predictSideEffects`. -/
theorem runSimulation_some {rid : Nat} {g b d q : Word32Array} {ok : Bool}
    {ts : Nat} {s s' : ContractState}
    (h : runSimulation rid g b d q ok ts s = some s') :
    s.requestToPatientId rid ≠ 0 ∧ ok = true ∧
    s.simulationCount + 1 < u256Bound ∧
    ∃ eff se, calculateEfficacy g b d q = some eff ∧
      predictSideEffects d q = some se ∧
      s' = { s with
        simulationCount := s.simulationCount + 1
        encryptedSimulations := setMap s.encryptedSimulations
          (s.simulationCount + 1)
          { simulationId := s.simulationCount + 1, encryptedOutcome := eff,
            encryptedSideEffects := 0,
            treatmentId := s.requestToPatientId rid, simulatedAt := ts }
        decryptedResults := setMap s.decryptedResults (s.simulationCount + 1)
          { efficacyScore := eff, sideEffects := se, isRevealed := false }
        events := s.events ++ [.SimulationCompleted (s.simulationCount + 1)] } := by
  unfold runSimulation at h
  by_cases h0 : s.requestToPatientId rid = 0
  · simp [h0] at h
  · simp only [h0, if_false] at h
    cases ok with
    | false => simp at h
    | true =>
      simp only [Bool.not_true, Bool.false_eq_true, if_false] at h
      by_cases hc : s.simulationCount + 1 < u256Bound
      · simp only [hc, if_true] at h
        refine ⟨h0, rfl, hc, ?_⟩
        cases heff : calculateEfficacy g b d q with
        | none => rw [heff] at h; simp at h
        | some eff =>
          cases hse : predictSideEffects d q with
          | none => rw [heff, hse] at h; simp at h
          | some se =>
            rw [heff, hse] at h
            simp only [Option.some.injEq] at h
            exact ⟨eff, se, rfl, rfl, h.symm⟩
      · simp [hc] at h

/-- Anatomy of a successful `decryptSimulation` call: the checks that
passed and the resulting state. -/
theorem decryptSimulation_some {rid eff : Nat} {se : List Nat} {ok : Bool}
    {t t' : ContractState}
    (h : decryptSimulation rid eff se ok t = some t') :
    t.simulationRequestToId rid ≠ 0 ∧
    (t.decryptedResults (t.simulationRequestToId rid)).isRevealed = false ∧
    ok = true ∧
    t' = { t with
      decryptedResults := setMap t.decryptedResults
        (t.simulationRequestToId rid)
        { efficacyScore := eff, sideEffects := se, isRevealed := true }
      events := t.events ++
        [.ResultDecrypted (t.simulationRequestToId rid)] } := by
  unfold decryptSimulation at h
  by_cases h0 : t.simulationRequestToId rid = 0
  · simp [h0] at h
  · simp only [h0, if_false] at h
    by_cases hrv :
        (t.decryptedResults (t.simulationRequestToId rid)).isRevealed = true
    · simp [hrv] at h
    · rw [if_neg hrv] at h
      cases ok with
      | false => simp at h
      | true =>
        simp only [Bool.not_true, Bool.false_eq_true, if_false,
          Option.some.injEq] at h
        exact ⟨h0, by simpa using hrv, rfl, h.symm⟩

end MedTwin

open MedTwin Frontend

/-- C1: whenever `calculateEfficacy` returns (does not revert), its value
is `min(100, Σ drugs[i]*dosage[i]/100)` and so never exceeds 100; and the
efficacy score stored by the `runSimulation` callback satisfies the same
bound. -/
theorem efficacy_clamped_min :
    (∀ g b drugs dosage v,
      calculateEfficacy g b drugs dosage = some v →
        v = min 100 (specEfficacySum drugs dosage) ∧ v ≤ 100) ∧
    (∀ rid g b d q ok ts s s',
      runSimulation rid g b d q ok ts s = some s' →
        (s'.decryptedResults (s.simulationCount + 1)).efficacyScore =
          min 100 (specEfficacySum d q) ∧
        (s'.decryptedResults (s.simulationCount + 1)).efficacyScore ≤ 100) := by
  constructor
  · intro g b drugs dosage v h
    have := calcEffLoop_eq drugs dosage 0 v h
    rw [Nat.zero_add] at this
    exact ⟨this, this ▸ Nat.min_le_left _ _⟩
  · intro rid g b d q ok ts s s' h
    obtain ⟨-, -, -, eff, se, heff, -, rfl⟩ := runSimulation_some h
    have h1 := calcEffLoop_eq d q 0 eff heff
    rw [Nat.zero_add] at h1
    simp only [setMap, if_pos rfl]
    exact ⟨h1, h1 ▸ Nat.min_le_left _ _⟩

/-- C1 witness: drugs `[200, 300]`, dosage `[50, 40]` give per-term scores
100 and 120, so the clamped efficacy is 100. -/
theorem efficacy_clamped_min_witness :
    (100 : Nat) = min 100 (specEfficacySum [200, 300] [50, 40]) ∧
    (100 : Nat) ≤ 100 :=
  efficacy_clamped_min.1 [] [] [200, 300] [50, 40] 100 (by decide)

/-- C2: whenever `predictSideEffects` returns, its value is exactly
`drugs[i]*dosage[i]/50` elementwise with no clamp; the `runSimulation`
callback stores that unclamped list; and there are inputs on which a
side-effect value exceeds 100. -/
theorem sideEffects_unclamped :
    (∀ drugs dosage es,
      predictSideEffects drugs dosage = some es →
        es = specSideEffects drugs dosage) ∧
    (∀ rid g b d q ok ts s s',
      runSimulation rid g b d q ok ts s = some s' →
        (s'.decryptedResults (s.simulationCount + 1)).sideEffects =
          specSideEffects d q) ∧
    (∃ drugs dosage es, predictSideEffects drugs dosage = some es ∧
      ∃ v ∈ es, 100 < v) := by
  refine ⟨fun drugs dosage es h => sideEffectsLoop_eq drugs dosage es h,
    ?_, ?_⟩
  · intro rid g b d q ok ts s s' h
    obtain ⟨-, -, -, eff, se, -, hse, rfl⟩ := runSimulation_some h
    simp only [setMap, if_pos rfl]
    exact sideEffectsLoop_eq d q se hse
  · exact ⟨[100], [51], [102], by decide, 102, by decide, by decide⟩

/-- C2 witness: drug 100 at dosage 51 yields the side-effect value
`100*51/50 = 102 > 100`. -/
theorem sideEffects_unclamped_witness :
    ([102] : List Nat) = specSideEffects [100] [51] :=
  sideEffects_unclamped.1 [100] [51] [102] (by decide)

/-- C9: `calculateEfficacy` never reads its genomics and biomarkers
arguments: its result depends only on drugs and dosage. -/
theorem efficacy_ignores_genomics_biomarkers
    (g b g' b' drugs dosage : Word32Array) :
    calculateEfficacy g b drugs dosage =
      calculateEfficacy g' b' drugs dosage := rfl

/-- C9 witness: two calls with wildly different genomics/biomarkers and
equal drugs/dosage coincide. -/
theorem efficacy_ignores_genomics_biomarkers_witness :
    calculateEfficacy [1, 2, 3] [4] [200] [50] =
      calculateEfficacy [999] [888, 777] [200] [50] :=
  efficacy_ignores_genomics_biomarkers [1, 2, 3] [4] [999] [888, 777]
    [200] [50]

/-- C4: a request id with no recorded correlation entry (the mapping
holds its default value 0) makes either oracle callback revert
(`none`: the transaction fails and the state is unchanged). -/
theorem unknown_request_rejected (s : ContractState) (reqId : Nat) :
    (s.requestToPatientId reqId = 0 →
      ∀ g b d q ok ts, runSimulation reqId g b d q ok ts s = none) ∧
    (s.simulationRequestToId reqId = 0 →
      ∀ eff se ok, decryptSimulation reqId eff se ok s = none) := by
  constructor
  · intro h g b d q ok ts
    unfold runSimulation
    simp [h]
  · intro h eff se ok
    unfold decryptSimulation
    simp [h]

/-- C4 witness: on a fresh deployment neither callback accepts request
id 3. -/
theorem unknown_request_rejected_witness :
    runSimulation 3 [] [] [] [] true 0 initState = none ∧
    decryptSimulation 3 0 [] true initState = none :=
  ⟨(unknown_request_rejected initState 3).1 rfl [] [] [] [] true 0,
   (unknown_request_rejected initState 3).2 rfl 0 [] true⟩

/-- C5: every successful registration assigns the successor of the
previous patient count as the new 1-based patient id, and in particular
two registrations from a fresh deployment assign ids 1 and 2 in call
order. -/
theorem patient_ids_sequential :
    (∀ s g b h ts s',
      registerEncryptedPatient g b h ts s = some s' →
        s'.patientCount = s.patientCount + 1 ∧
        (s'.encryptedPatients (s.patientCount + 1)).patientId =
          s.patientCount + 1) ∧
    (∀ g1 b1 h1 t1 g2 b2 h2 t2, ∃ s1 s2,
      registerEncryptedPatient g1 b1 h1 t1 initState = some s1 ∧
      registerEncryptedPatient g2 b2 h2 t2 s1 = some s2 ∧
      s1.patientCount = 1 ∧ (s1.encryptedPatients 1).patientId = 1 ∧
      s2.patientCount = 2 ∧ (s2.encryptedPatients 2).patientId = 2) := by
  have key : ∀ s g b h ts s',
      registerEncryptedPatient g b h ts s = some s' →
        s'.patientCount = s.patientCount + 1 ∧
        (s'.encryptedPatients (s.patientCount + 1)).patientId =
          s.patientCount + 1 := by
    intro s g b h ts s' hs
    unfold registerEncryptedPatient at hs
    by_cases hc : s.patientCount + 1 < u256Bound
    · simp only [hc, if_true, Option.some.injEq] at hs
      subst hs
      simp [setMap]
    · simp [hc] at hs
  refine ⟨key, ?_⟩
  intro g1 b1 h1 t1 g2 b2 h2 t2
  exact ⟨(registerEncryptedPatient g1 b1 h1 t1 initState).getD initState,
    (registerEncryptedPatient g2 b2 h2 t2
      ((registerEncryptedPatient g1 b1 h1 t1 initState).getD
        initState)).getD initState,
    rfl, rfl, rfl, rfl, rfl, rfl⟩

/-- C5 witness: one concrete registration from a fresh deployment bumps
the count to 1 and stores patient id 1. -/
theorem patient_ids_sequential_witness :
    w5s1.patientCount = initState.patientCount + 1 ∧
    (w5s1.encryptedPatients (initState.patientCount + 1)).patientId =
      initState.patientCount + 1 :=
  patient_ids_sequential.1 initState 10 20 30 40 w5s1 rfl

/-- C8: `prescribeEncryptedTreatment` succeeds for any `patientId`
whatsoever — it performs no existence check — incrementing the treatment
counter, storing a record that references that `patientId`, and emitting
the `TreatmentPrescribed` event.  The only failure mode is `uint256`
counter overflow. -/
theorem prescribe_no_existence_check (s : ContractState)
    (patientId d q sch ts : Nat)
    (hof : s.treatmentCount + 1 < u256Bound) :
    ∃ s', prescribeEncryptedTreatment patientId d q sch ts s = some s' ∧
      s'.treatmentCount = s.treatmentCount + 1 ∧
      s'.encryptedTreatments (s.treatmentCount + 1) =
        { treatmentId := s.treatmentCount + 1, encryptedDrugs := d,
          encryptedDosage := q, encryptedSchedule := sch,
          patientId := patientId, prescribedAt := ts } ∧
      s'.events = s.events ++
        [.TreatmentPrescribed (s.treatmentCount + 1) patientId] := by
  unfold prescribeEncryptedTreatment
  simp only [hof, if_true]
  exact ⟨_, rfl, rfl, by simp [setMap], rfl⟩

/-- C8 witness: on a fresh deployment, prescribing for the nonexistent
patient 999 succeeds and stores a dangling reference. -/
theorem prescribe_no_existence_check_witness :
    ∃ s', prescribeEncryptedTreatment 999 5 6 7 8 initState = some s' ∧
      s'.treatmentCount = initState.treatmentCount + 1 ∧
      s'.encryptedTreatments (initState.treatmentCount + 1) =
        { treatmentId := initState.treatmentCount + 1, encryptedDrugs := 5,
          encryptedDosage := 6, encryptedSchedule := 7,
          patientId := 999, prescribedAt := 8 } ∧
      s'.events = initState.events ++
        [.TreatmentPrescribed (initState.treatmentCount + 1) 999] :=
  prescribe_no_existence_check initState 999 5 6 7 8
    (by norm_num [initState, u256Bound])

/-- C3 counterexample: the claim is false as stated.  Because
`requestResultDecryption` checks only the revealed flag and not that the
simulation exists, a doctor can request — and the oracle reveal — the
result of the not-yet-created simulation 1; the next `runSimulation`
callback then creates simulation `simulationCount + 1 = 1` and overwrites
the revealed record, setting `isRevealed` back to `false`.  The trace is
reachable from deployment. -/
theorem reveal_overwrite_counterexample :
    Reachable c3Snapshot ∧
    (c3Snapshot.decryptedResults 1).isRevealed = true ∧
    Step c3Snapshot c3After ∧
    (c3After.decryptedResults 1).isRevealed = false := by
  have h1 : requestResultDecryption 1 7 initState = some c3s1 := rfl
  have h2 : decryptSimulation 7 42 [] true c3s1 = some c3s2 := rfl
  have h4 : runSimulation 9 [] [] [] [] true 0 c3Snapshot = some c3After :=
    rfl
  refine ⟨?_, rfl, Step.runSim h4, rfl⟩
  exact Reachable.step
    (Reachable.step (Reachable.step Reachable.init (Step.requestDecrypt h1))
      (Step.decryptSim h2))
    (Step.requestSim 5 9)

/-- C3 (amended): for every reachable contract state and every simulation
id that does not exceed `simulationCount` (i.e. one the simulation
callback has actually created) whose `DecryptedResult` is revealed, both
`requestResultDecryption` and a further `decryptSimulation` callback for
it reject, and no contract operation changes that record — in particular
none sets `isRevealed` back to `false`.  (As stated, without the
`simulationCount` bound, the claim fails: see the counterexample.) -/
theorem revealed_result_immutable (s : ContractState) (hr : Reachable s)
    (simId : Nat) (hle : simId ≤ s.simulationCount)
    (hrev : (s.decryptedResults simId).isRevealed = true) :
    (∀ reqId, requestResultDecryption simId reqId s = none) ∧
    (∀ reqId eff se ok, s.simulationRequestToId reqId = simId →
      decryptSimulation reqId eff se ok s = none) ∧
    (∀ s', Step s s' → s'.decryptedResults simId = s.decryptedResults simId) := by
  refine ⟨?_, ?_, ?_⟩
  · intro reqId
    unfold requestResultDecryption
    simp [hrev]
  · intro reqId eff se ok hmap
    unfold decryptSimulation
    by_cases h0 : s.simulationRequestToId reqId = 0
    · simp [h0]
    · simp [h0, hmap, hrev]
  · intro s' hstep
    cases hstep with
    | register hs =>
      unfold registerEncryptedPatient at hs
      split_ifs at hs
      simp only [Option.some.injEq] at hs
      subst hs; rfl
    | prescribe hs =>
      unfold prescribeEncryptedTreatment at hs
      split_ifs at hs
      simp only [Option.some.injEq] at hs
      subst hs; rfl
    | requestSim treatmentId reqId => rfl
    | runSim hs =>
      obtain ⟨-, -, -, eff, se, -, -, rfl⟩ := runSimulation_some hs
      simp only [setMap]
      rw [if_neg (by omega)]
    | requestDecrypt hs =>
      unfold requestResultDecryption at hs
      split_ifs at hs
      simp only [Option.some.injEq] at hs
      subst hs; rfl
    | decryptSim hs =>
      rename_i rid eff se ok
      obtain ⟨h0, hrv, hok, rfl⟩ := decryptSimulation_some hs
      have hne : simId ≠ s.simulationRequestToId rid := by
        intro heq
        rw [heq] at hrev
        rw [hrev] at hrv
        exact Bool.noConfusion hrv
      simp only [setMap]
      rw [if_neg hne]

/-- C3 witness: in the reachable state after the ordinary lifecycle
(request simulation, run it, request decryption, reveal), simulation 1 is
revealed and both a fresh decryption request for it and a replay of the
reveal callback are rejected. -/
theorem revealed_result_immutable_witness :
    requestResultDecryption 1 3 w3s4 = none ∧
    decryptSimulation 7 50 [] true w3s4 = none := by
  have h1 : runSimulation 9 [] [] [] [] true 0 w3s1 = some w3s2 := rfl
  have h2 : requestResultDecryption 1 7 w3s2 = some w3s3 := rfl
  have h3 : decryptSimulation 7 42 [] true w3s3 = some w3s4 := rfl
  have hreach : Reachable w3s4 :=
    Reachable.step
      (Reachable.step
        (Reachable.step (Reachable.step Reachable.init (Step.requestSim 5 9))
          (Step.runSim h1))
        (Step.requestDecrypt h2))
      (Step.decryptSim h3)
  have key := revealed_result_immutable w3s4 hreach 1 (by decide) rfl
  exact ⟨key.1 3, key.2.1 7 50 [] true rfl⟩

/-- C10: `runSimulation` never clears its correlation entry, so after one
successful callback for a request id, a second callback for the same
request id (with a valid proof, and room left in the `uint256` counter)
succeeds again and creates an additional simulation record and decrypted
result under the fresh sequential id `simulationCount + 1`; whereas a
replay of the reveal callback always fails. -/
theorem runSimulation_replayable :
    (∀ s s1 rid g b d q ts ts',
      runSimulation rid g b d q true ts s = some s1 →
      s1.simulationCount + 1 < u256Bound →
        s1.requestToPatientId rid = s.requestToPatientId rid ∧
        ∃ s2, runSimulation rid g b d q true ts' s1 = some s2 ∧
          s2.simulationCount = s1.simulationCount + 1 ∧
          (s2.encryptedSimulations (s1.simulationCount + 1)).simulationId =
            s1.simulationCount + 1 ∧
          (s2.decryptedResults (s1.simulationCount + 1)).isRevealed =
            false) ∧
    (∀ t t' rid eff se ok,
      decryptSimulation rid eff se ok t = some t' →
        decryptSimulation rid eff se ok t' = none) := by
  constructor
  · intro s s1 rid g b d q ts ts' h1 hcap
    obtain ⟨hne, -, -, eff, se, heff, hse, rfl⟩ := runSimulation_some h1
    refine ⟨rfl, ?_⟩
    have h2 : runSimulation rid g b d q true ts'
        { s with
          simulationCount := s.simulationCount + 1
          encryptedSimulations := setMap s.encryptedSimulations
            (s.simulationCount + 1)
            { simulationId := s.simulationCount + 1,
              encryptedOutcome := eff, encryptedSideEffects := 0,
              treatmentId := s.requestToPatientId rid, simulatedAt := ts }
          decryptedResults := setMap s.decryptedResults
            (s.simulationCount + 1)
            { efficacyScore := eff, sideEffects := se, isRevealed := false }
          events := s.events ++
            [.SimulationCompleted (s.simulationCount + 1)] } ≠ none := by
      unfold runSimulation
      simp only [hne, if_false, Bool.not_true, Bool.false_eq_true]
      simp only [hcap, if_true, heff, hse]
      simp
    cases e2 : runSimulation rid g b d q true ts' _ with
    | none => exact absurd e2 h2
    | some s2 =>
      obtain ⟨-, -, -, eff2, se2, -, -, rfl⟩ := runSimulation_some e2
      exact ⟨_, rfl, rfl, by simp [setMap], by simp [setMap]⟩
  · intro t t' rid eff se ok hs
    obtain ⟨h0, hrv, hok, rfl⟩ := decryptSimulation_some hs
    simp [decryptSimulation, setMap, h0]

/-- C6: `loadTwins` never throws — it is a total function here — and it
degrades gracefully: an index blob that fails to parse yields the empty
list, and a read or parse failure on one twin key skips only that key, so
with index `["a","b"]`, a parseable record for `"a"` and corrupt JSON for
`"b"`, the result is exactly the one entry for `"a"`. -/
theorem loadTwins_error_tolerant :
    (∀ env prev bs, env.isAvailable = true →
      env.data "twin_keys" = some bs → env.parseKeys bs = none →
      loadTwins env prev = []) ∧
    (∀ env prev bs ba bb td, env.isAvailable = true →
      env.data "twin_keys" = some bs → bs.length > 0 →
      env.parseKeys bs = some ["a", "b"] →
      env.data "twin_a" = some ba → ba.length > 0 →
      env.parseTwin ba = some td →
      env.data "twin_b" = some bb → bb.length > 0 →
      env.parseTwin bb = none →
      loadTwins env prev = [mkTwin "a" td]) := by
  constructor
  · intro env prev bs havail hdata hparse
    simp [loadTwins, havail, hdata, hparse, sortByCreatedDesc]
  · intro env prev bs ba bb td havail hdata hlen hparse hda hlena hta hdb
      hlenb htb
    have ea : String.append "twin_" "a" = "twin_a" := rfl
    have eb : String.append "twin_" "b" = "twin_b" := rfl
    simp only [loadTwins, havail, Bool.not_true, Bool.false_eq_true,
      if_false, hdata, hlen, if_true, hparse, Option.getD_some,
      List.filterMap_cons, loadOneTwin, ea, eb, hda, hta, hdb, htb,
      hlena, hlenb, List.filterMap_nil]
    simp [sortByCreatedDesc, insertByCreatedDesc]

/-- C6 witness: the concrete ledger `w6env` realizes the scenario and
loads exactly the twin for key `"a"`. -/
theorem loadTwins_error_tolerant_witness :
    loadTwins w6env [] = [mkTwin "a" w6twin] :=
  loadTwins_error_tolerant.2 w6env [] [1] [2] [3] w6twin rfl (by decide)
    (by decide) (by decide) (by decide) (by decide) (by decide) (by decide)
    (by decide) (by decide)

/-- C7: whenever an append-treatment run succeeds (the twin's blob exists,
is nonempty and parses), it appends exactly one treatment whose
effectiveness `rnd + 70` lies in `[70, 95]` for every possible value
`rnd ≤ 25` of the random draw `Math.floor(Math.random() * 26)`, and whose
side-effect label is `"Minimal"` exactly when effectiveness exceeds 85. -/
theorem simulateTreatment_appends_bounded (env : LedgerEnv)
    (twinId tName tDosage tDuration newId : String) (rnd now : Nat)
    (hrnd : rnd ≤ 25) (twinBytes : Bytes) (td : TwinJson)
    (h1 : env.data (String.append "twin_" twinId) = some twinBytes)
    (h2 : twinBytes.length ≠ 0)
    (h3 : env.parseTwin twinBytes = some td) :
    ∃ t : Treatment,
      simulateTreatment env twinId tName tDosage tDuration newId rnd now =
        some { td with
          updatedAt := now,
          treatmentHistory := some (td.treatmentHistory.getD [] ++ [t]) } ∧
      70 ≤ t.effectiveness ∧ t.effectiveness ≤ 95 ∧
      (t.sideEffects = "Minimal" ↔ 85 < t.effectiveness) := by
  refine ⟨⟨newId, tName, tDosage, tDuration, rnd + 70,
    if rnd + 70 > 85 then "Minimal" else "Moderate", now⟩,
    ?_, by show 70 ≤ rnd + 70; omega, by show rnd + 70 ≤ 95; omega, ?_⟩
  · simp only [simulateTreatment, h1]
    rw [if_neg h2, h3]
  · show (if rnd + 70 > 85 then "Minimal" else "Moderate") = "Minimal" ↔
      85 < rnd + 70
    by_cases hc : rnd + 70 > 85
    · rw [if_pos hc]
      simpa using hc
    · rw [if_neg hc]
      exact ⟨fun h => absurd h (by decide), fun h => absurd h hc⟩

/-- C7 witness: on the concrete ledger `w7env`, with random draw 20, a
treatment with effectiveness 90 and label `"Minimal"` is appended. -/
theorem simulateTreatment_appends_bounded_witness :
    ∃ t : Treatment,
      simulateTreatment w7env "x" "Standard Therapy" "Recommended"
          "4 weeks" "t1" 20 60 =
        some { w7twin with
          updatedAt := 60,
          treatmentHistory :=
            some (w7twin.treatmentHistory.getD [] ++ [t]) } ∧
      70 ≤ t.effectiveness ∧ t.effectiveness ≤ 95 ∧
      (t.sideEffects = "Minimal" ↔ 85 < t.effectiveness) :=
  simulateTreatment_appends_bounded w7env "x" "Standard Therapy"
    "Recommended" "4 weeks" "t1" 20 60 (by decide) [9] w7twin (by decide)
    (by decide) (by decide)

/-- C10 witness: after a first simulation callback for request id 4, a
second callback for the same request id succeeds and creates simulation
2. -/
theorem runSimulation_replayable_witness :
    w10s2.requestToPatientId 4 = w10s1.requestToPatientId 4 ∧
    ∃ s2, runSimulation 4 [] [] [] [] true 1 w10s2 = some s2 ∧
      s2.simulationCount = w10s2.simulationCount + 1 ∧
      (s2.encryptedSimulations (w10s2.simulationCount + 1)).simulationId =
        w10s2.simulationCount + 1 ∧
      (s2.decryptedResults (w10s2.simulationCount + 1)).isRevealed =
        false :=
  runSimulation_replayable.1 w10s1 w10s2 4 [] [] [] [] 0 1 rfl (by decide)
